import Mathlib

/-!
Shallow embedding of the frame-compositing and capture pipeline of the
hmns-webAR application (src/src/js/main.js, latest revision starting at
line 787, and the revision in src/unnamed/part_000 starting at line 1281
that carries the recording health-check / fallback logic).

Numbers that JavaScript holds as IEEE doubles are modelled as exact
rationals (ℚ); millisecond timestamps as integers (ℤ); byte sizes as ℕ.
-/

/- ---------------------------------------------------------------- -/
/- Strings: substring test used by saveRecording's format branching -/
/- ---------------------------------------------------------------- -/

/-- `sub` occurs as a contiguous run inside `l` (JavaScript
`String.prototype.includes`). -/
def listHasInfix (sub : List Char) : List Char → Bool
  | [] => sub.isEmpty
  | c :: t => sub.isPrefixOf (c :: t) || listHasInfix sub t

/-- JavaScript `s.includes(sub)`. -/
def strHasSub (s sub : String) : Bool :=
  listHasInfix sub.toList s.toList

/-- JavaScript `s.toLowerCase()` over the ASCII MIME strings involved
(character-by-character, kernel-reducible unlike `String.toLower`). -/
def strToLower (s : String) : String :=
  String.mk (s.toList.map Char.toLower)

/- ---------------------------------------------------------------- -/
/- Recording chunks and saveRecording (main.js 2231-2347,           -/
/- part_000 2565-2632)                                              -/
/- ---------------------------------------------------------------- -/

/-- One encoded-media chunk delivered by the recorder: its byte size and
its reported MIME type (`Blob.size` / `Blob.type`). -/
structure Chunk where
  size : Nat
  ctype : String
deriving Repr, DecidableEq

/-- `this.recordedChunks.reduce((sum, chunk) => sum + chunk.size, 0)`. -/
def totalChunkSize (chunks : List Chunk) : Nat :=
  (chunks.map Chunk.size).sum

/-- Outcome surfaced to the user by `saveRecording`. -/
inductive SaveOutcome where
  | saved
  | failed (msg : String)
deriving Repr, DecidableEq

/-- Result of a `saveRecording` call: the outcome, the download that was
produced (extension, MIME type) if any, and the value of
`this.recordedChunks` after the call returns. -/
structure SaveResult where
  outcome : SaveOutcome
  download : Option (String × String)
  newChunks : List Chunk
deriving Repr, DecidableEq

/-- File extension / container MIME type chosen by `saveRecording` in
main.js (lines 2244-2276): defaults are mp4; a recorder-reported webm
format keeps webm only off mobile; mobile always forces mp4. -/
def chooseFormatMain (recorderMime : Option String) (isMobile : Bool) :
    String × String :=
  let dflt := ("mp4", "video/mp4")
  match recorderMime with
  | some m =>
    let ml := strToLower m
    if strHasSub ml "webm" then
      if isMobile then ("mp4", "video/mp4") else ("webm", "video/webm")
    else if strHasSub ml "mp4" then ("mp4", "video/mp4")
    else if isMobile then ("mp4", "video/mp4") else dflt
  | none => if isMobile then ("mp4", "video/mp4") else dflt

/-- `saveRecording` of main.js (lines 2231-2347). The iOS branch still
offers the file for download (a preview page with a download link), so
the produced download does not depend on `isIOS`. -/
def saveRecordingMain (chunks : List Chunk) (recorderMime : Option String)
    (isMobile _isIOS : Bool) : SaveResult :=
  if chunks.isEmpty then
    ⟨.failed "No recording data available", none, []⟩
  else
    let totalSize := totalChunkSize chunks
    if totalSize = 0 then
      ⟨.failed "Recording is empty (0 bytes)", none, []⟩
    else
      let fm := chooseFormatMain recorderMime isMobile
      -- new Blob(this.recordedChunks).size equals the summed chunk sizes
      let blobSize := totalSize
      if blobSize = 0 then
        ⟨.failed "Recording blob is empty", none, []⟩
      else
        ⟨.saved, some fm, []⟩

/-- Extension/MIME chosen by `saveRecording` in part_000 (lines
2585-2598): webm default, mp4 when the first chunk's type includes
"mp4". -/
def chooseFormatPart (chunks : List Chunk) : String × String :=
  match chunks.head? with
  | some firstChunk =>
    if strHasSub firstChunk.ctype "mp4" then ("mp4", "video/mp4")
    else ("webm", "video/webm")
  | none => ("webm", "video/webm")

/-- `saveRecording` of part_000 (lines 2565-2632). -/
def saveRecordingPart (chunks : List Chunk) : SaveResult :=
  if chunks.isEmpty then
    ⟨.failed "No recording data available", none, []⟩
  else
    let totalSize := totalChunkSize chunks
    if totalSize = 0 then
      ⟨.failed "All recording chunks are empty", none, []⟩
    else
      let fm := chooseFormatPart chunks
      let blobSize := totalSize
      if blobSize = 0 then
        ⟨.failed "Recording blob is empty", none, []⟩
      else
        ⟨.saved, some fm, []⟩

/- ---------------------------------------------------------------- -/
/- Size/Layout Resolver: updateCanvasSize (main.js 1458-1517)       -/
/- ---------------------------------------------------------------- -/

/-- `updateCanvasSize` of main.js: target pixel dimensions of the
composite canvas from viewport size `vw × vh` (CSS px) and device
pixel ratio `pr`. Mobile clamps sequentially to 1280 wide then 720
high by proportional scaling; desktop raises width and height
independently to the 320×240 floor scaled by `pr`. -/
def updateCanvasSize (isMobile : Bool) (vw vh pr : ℚ) : ℚ × ℚ :=
  let targetWidth := vw * pr
  let targetHeight := vh * pr
  if isMobile then
    let p1 :=
      if targetWidth > 1280 then
        (1280, targetHeight * (1280 / targetWidth))
      else (targetWidth, targetHeight)
    if p1.2 > 720 then (p1.1 * (720 / p1.2), 720) else p1
  else
    (max targetWidth (320 * pr), max targetHeight (240 * pr))

/- ---------------------------------------------------------------- -/
/- Video Compositor: cover fit for the camera video                 -/
/- (drawVideoWithAspectRatio, main.js 1707-1755) and contain fit    -/
/- for the 3D renderer layer (updateCompositeCanvas, 1662-1700)     -/
/- ---------------------------------------------------------------- -/

/-- Destination rectangle of a `drawImage` call: size and offset of the
drawn image inside the composite canvas. -/
structure DrawRect where
  dw : ℚ
  dh : ℚ
  ox : ℚ
  oy : ℚ
deriving Repr, DecidableEq

/-- Cover-fit rectangle computed by `drawVideoWithAspectRatio` for a
video of size `sw × sh` on a canvas of size `cw × ch`. -/
def drawVideoCoverRect (sw sh cw ch : ℚ) : DrawRect :=
  let videoAspect := sw / sh
  let canvasAspect := cw / ch
  if videoAspect > canvasAspect then
    -- video wider than canvas: fit to height, crop width
    let dh := ch
    let dw := ch * videoAspect
    ⟨dw, dh, (cw - dw) / 2, 0⟩
  else
    -- video taller than canvas: fit to width, crop height
    let dw := cw
    let dh := cw / videoAspect
    ⟨dw, dh, 0, (ch - dh) / 2⟩

/-- Contain-fit rectangle computed inside `updateCompositeCanvas` for
the 3D renderer canvas of size `rw × rh` on a composite canvas of size
`cw × ch`. -/
def drawRendererContainRect (rw rh cw ch : ℚ) : DrawRect :=
  let rendererAspect := rw / rh
  let canvasAspect := cw / ch
  if rendererAspect > canvasAspect then
    -- renderer wider than canvas: fit to width
    let dw := cw
    let dh := cw / rendererAspect
    ⟨dw, dh, 0, (ch - dh) / 2⟩
  else
    -- renderer taller than canvas: fit to height
    let dh := ch
    let dw := ch * rendererAspect
    ⟨dw, dh, (cw - dw) / 2, 0⟩

/- ---------------------------------------------------------------- -/
/- Capture Dispatcher: takeScreenshot (main.js 1757-1802),          -/
/- captureFromCanvas (1804-1850), captureFromVideo (1852-1921)      -/
/- ---------------------------------------------------------------- -/

/-- The capture source a screenshot attempt samples from. -/
inductive CaptureSource where
  | composite
  | rendererOnly
  | rawVideo
deriving Repr, DecidableEq

/-- Outcome of a screenshot attempt: either an image download, or a
user-visible error naming the path that was tried. -/
inductive CaptureOutcome where
  | downloaded (source : CaptureSource)
  | errorShown (source : CaptureSource)
deriving Repr, DecidableEq

/-- `captureFromCanvas` (and likewise `captureFromVideo`): the
extracted data-URL length is checked against the 1000-byte
empty-canvas threshold; below it the capture throws and the catch
block surfaces a failure, otherwise the image is downloaded. -/
def captureFromCanvas (source : CaptureSource) (dataLen : Nat) :
    CaptureOutcome :=
  if dataLen < 1000 then .errorShown source else .downloaded source

/-- The single source `takeScreenshot` picks up front: composite when
the composite canvas exists and video content is detected, renderer
when the composite exists without video content, else raw video when
it has dimensions, else renderer. -/
def selectCaptureSource (hasCompositeCanvas hasVideoContent videoWidthPositive : Bool) :
    CaptureSource :=
  if hasCompositeCanvas then
    if hasVideoContent then .composite else .rendererOnly
  else if videoWidthPositive then .rawVideo
  else .rendererOnly

/-- `takeScreenshot` of main.js: selects one source and runs the
corresponding capture on the data extracted from it (`extract` gives
the data-URL length the extraction would produce for each source). -/
def takeScreenshot (hasCompositeCanvas hasVideoContent videoWidthPositive : Bool)
    (extract : CaptureSource → Nat) : CaptureOutcome :=
  if hasCompositeCanvas then
    if hasVideoContent then captureFromCanvas .composite (extract .composite)
    else captureFromCanvas .rendererOnly (extract .rendererOnly)
  else if videoWidthPositive then
    -- captureFromVideo applies the same 1000-byte validity check
    captureFromCanvas .rawVideo (extract .rawVideo)
  else captureFromCanvas .rendererOnly (extract .rendererOnly)

/- ---------------------------------------------------------------- -/
/- Recording format negotiation: startRecording                     -/
/- (main.js 2022-2062, part_000 2175-2193)                          -/
/- ---------------------------------------------------------------- -/

/-- MIME-type preference list of main.js `startRecording`. -/
def mimeCandidatesMain (isMobile : Bool) : List String :=
  if isMobile then
    ["video/mp4;codecs=h264", "video/mp4;codecs=avc1", "video/mp4",
     "video/webm;codecs=vp9", "video/webm;codecs=vp8", "video/webm"]
  else
    ["video/mp4;codecs=h264", "video/mp4",
     "video/webm;codecs=vp9", "video/webm;codecs=vp8", "video/webm"]

/-- MIME selection of main.js `startRecording`: the loop keeps the
first candidate the support predicate accepts; a null result is then
replaced by the universal fallback "video/webm", after which the
format-error throw can no longer fire. -/
def selectMimeTypeMain (support : String → Bool) (isMobile : Bool) :
    Except String String :=
  let selected := (mimeCandidatesMain isMobile).find? support
  let selected := match selected with
    | none => some "video/webm"
    | some m => some m
  match selected with
  | none => .error "No supported video format found"
  | some m => .ok m

/-- MIME-type preference list of part_000 `startRecording`. -/
def mimeCandidatesPart : List String :=
  ["video/webm;codecs=vp9", "video/webm;codecs=vp8", "video/webm", "video/mp4"]

/-- MIME selection of part_000 `startRecording`: first supported
candidate, error when none is. -/
def selectMimeTypePart (support : String → Bool) : Except String String :=
  match mimeCandidatesPart.find? support with
  | some m => .ok m
  | none => .error "No supported video format found"

/- ---------------------------------------------------------------- -/
/- Target Visibility Controller / pose stabilization                -/
/- (main.js 811-821, 1141-1188, 1277-1351)                          -/
/- ---------------------------------------------------------------- -/

/-- A three-component vector over ℚ: used for both THREE.Vector3
positions and THREE.Euler rotations. -/
structure Vec3 where
  x : ℚ
  y : ℚ
  z : ℚ
deriving Repr, DecidableEq

/-- Componentwise sum. -/
def vadd (a b : Vec3) : Vec3 := ⟨a.x + b.x, a.y + b.y, a.z + b.z⟩

/-- `multiplyScalar`. -/
def vscale (a : Vec3) (t : ℚ) : Vec3 := ⟨a.x * t, a.y * t, a.z * t⟩

/-- `THREE.MathUtils.lerp` componentwise; also `Vector3.lerp`:
`a + (b - a) * t` in each component. -/
def lerpVec (a b : Vec3) (t : ℚ) : Vec3 :=
  ⟨a.x + (b.x - a.x) * t, a.y + (b.y - a.y) * t, a.z + (b.z - a.z) * t⟩

/-- `this.historySize = 5` (constructor, main.js line 820). -/
def historySize : Nat := 5

/-- `this.stabilizationDelay = 100` ms (constructor, main.js 817). -/
def stabilizationDelay : ℤ := 100

/-- `this.confidenceThreshold = 0.7` (constructor, main.js 813). -/
def confidenceThreshold : ℚ := 7 / 10

/-- `this.smoothingFactor = 0.15` (constructor, main.js 812). -/
def smoothingFactor : ℚ := 3 / 20

/-- `addToHistory` (main.js 1308-1313): push, then shift the oldest
sample once the bound is exceeded. -/
def addToHistory (history : List Vec3) (value : Vec3) : List Vec3 :=
  let h := history ++ [value]
  if h.length > historySize then h.drop 1 else h

/-- Recency-weighted average used by both `calculateSmoothedPosition`
and `calculateSmoothedRotation`: weight `(i + 1) / n` for sample `i`
of `n`, accumulated then divided by the total weight. -/
def weightedAverage (history : List Vec3) : Vec3 :=
  let n : ℚ := history.length
  let acc := history.enum.foldl
    (fun s p => vadd s (vscale p.2 ((p.1 + 1 : ℚ) / n))) ⟨0, 0, 0⟩
  let totalWeight := history.enum.foldl
    (fun s p => s + ((p.1 + 1 : ℚ) / n)) 0
  vscale acc (1 / totalWeight)

/-- `calculateSmoothedPosition` (main.js 1315-1328). -/
def calculateSmoothedPosition (history : List Vec3) : Vec3 :=
  if history.length = 0 then ⟨0, 0, 0⟩ else weightedAverage history

/-- `calculateSmoothedRotation` (main.js 1330-1350): same weighted
average, componentwise over Euler angles. -/
def calculateSmoothedRotation (history : List Vec3) : Vec3 :=
  if history.length = 0 then ⟨0, 0, 0⟩ else weightedAverage history

/-- The tracking/stabilization slice of WebARApp state. -/
structure ARState where
  isTargetVisible : Bool
  trackingConfidence : ℚ
  lastStableTime : ℤ
  positionHistory : List Vec3
  rotationHistory : List Vec3
  targetPosition : Vec3
  targetRotation : Vec3
  anchorPosition : Vec3
  anchorRotation : Vec3
deriving Repr, DecidableEq

/-- `updateTrackingStabilization` (main.js 1277-1306), one frame tick
at wall-clock time `currentTime` (`Date.now()`). Histories always
receive the current anchor pose; the smoothed pose is applied to the
anchor group only when the stabilization delay has strictly elapsed
and the confidence strictly exceeds the threshold. -/
def updateTrackingStabilization (st : ARState) (currentTime : ℤ) : ARState :=
  if !st.isTargetVisible then st
  else
    let posH := addToHistory st.positionHistory st.anchorPosition
    let rotH := addToHistory st.rotationHistory st.anchorRotation
    let smoothedPosition := calculateSmoothedPosition posH
    let smoothedRotation := calculateSmoothedRotation rotH
    let timeSinceStable := currentTime - st.lastStableTime
    if timeSinceStable > stabilizationDelay
        ∧ st.trackingConfidence > confidenceThreshold then
      let tp := lerpVec st.targetPosition smoothedPosition smoothingFactor
      let tr := lerpVec st.targetRotation smoothedRotation smoothingFactor
      { st with
        positionHistory := posH, rotationHistory := rotH,
        targetPosition := tp, targetRotation := tr,
        anchorPosition := tp, anchorRotation := tr }
    else
      { st with positionHistory := posH, rotationHistory := rotH }

/-- `onTargetFound` (main.js 1141-1168): confidence 1.0, stable-time
stamp, target pose seeded from the anchor, histories reset. -/
def onTargetFound (st : ARState) (now : ℤ) : ARState :=
  { st with
    isTargetVisible := true, trackingConfidence := 1,
    lastStableTime := now,
    targetPosition := st.anchorPosition,
    targetRotation := st.anchorRotation,
    positionHistory := [], rotationHistory := [] }

/-- `onTargetLost` (main.js 1181-1188). -/
def onTargetLost (st : ARState) : ARState :=
  { st with
    isTargetVisible := false, trackingConfidence := 0,
    positionHistory := [], rotationHistory := [] }

/- ---------------------------------------------------------------- -/
/- Recording Session health check (part_000 2203-2316, 2489-2517)   -/
/- ---------------------------------------------------------------- -/

/-- The recording-session slice of WebARApp state in part_000's last
revision. -/
structure RecSt where
  isRecording : Bool
  dataReceived : Bool
  recordingAttempts : Nat
  fallbackRecording : Bool
  recordingStartTime : ℤ
  lastDataTime : ℤ
  recordedChunks : List Chunk
deriving Repr, DecidableEq

/-- State writes done by `startRecording` (part_000 2207-2212) when the
recorder starts: fresh chunk list, timestamps at `now`, and — the write
that matters for the escalation policy — `recordingAttempts = 0`. -/
def startRecordingInit (st : RecSt) (now : ℤ) : RecSt :=
  { st with
    recordedChunks := [], recordingStartTime := now, lastDataTime := now,
    dataReceived := false, recordingAttempts := 0, isRecording := true }

/-- `stopRecording` (part_000 2489-2517) during a health-check restart:
the recorder is stopped, its `onstop` runs `saveRecording` (which
always clears the chunk list), and `isRecording` drops. -/
def stopRecordingModel (st : RecSt) : RecSt :=
  { st with isRecording := false, recordedChunks := [] }

/-- What a health check decides to do next. -/
inductive HealthAction where
  | rescheduleCheck
  | restartRecording
  | startFallback
  | notRecording
deriving Repr, DecidableEq

/-- `checkRecordingHealth` (part_000 2267-2316): with no data after a
recording duration above 3000 ms the attempt counter is bumped; at two
or more attempts the session stops and the degraded frame-polling
fallback starts, below that the session stops and restarts. (The
data-received-but-stale branch only shows a status message and, like
the healthy branch, reschedules the check with the state unchanged.) -/
def checkRecordingHealth (st : RecSt) (now : ℤ) : HealthAction × RecSt :=
  if !st.isRecording then (.notRecording, st)
  else
    let recordingDuration := now - st.recordingStartTime
    if !st.dataReceived ∧ recordingDuration > 3000 then
      let st1 := { st with recordingAttempts := st.recordingAttempts + 1 }
      if st1.recordingAttempts ≥ 2 then
        (.startFallback, stopRecordingModel st1)
      else
        (.restartRecording, stopRecordingModel st1)
    else
      (.rescheduleCheck, st)

/-- `startFallbackRecording` (part_000 2318-2345). -/
def startFallbackRecordingModel (st : RecSt) : RecSt :=
  { st with fallbackRecording := true }

/-- One restart cycle of a session whose encoder never delivers a
chunk: the health check scheduled 2000 ms after start finds a duration
of 2000 ms (below the 3000 ms timeout) and reschedules; the next check
at 4000 ms times out; per the resulting action the session either
restarts 500 ms later (`startRecording` again) or enters the
fallback. -/
def zeroChunkCycle (p : RecSt × ℤ) : RecSt × ℤ :=
  let c1 := checkRecordingHealth p.1 (p.2 + 2000)
  let c2 := checkRecordingHealth c1.2 (p.2 + 4000)
  match c2.1 with
  | .restartRecording => (startRecordingInit c2.2 (p.2 + 4500), p.2 + 4500)
  | .startFallback => (startFallbackRecordingModel c2.2, p.2 + 4000)
  | _ => (c2.2, p.2 + 4000)

/-- WebARApp constructor state relevant to recording (part_000
1287-1293). -/
def initRecSt : RecSt :=
  { isRecording := false, dataReceived := false, recordingAttempts := 0,
    fallbackRecording := false, recordingStartTime := 0, lastDataTime := 0,
    recordedChunks := [] }

/-- The zero-chunk execution: recording started at `t0`, then `n`
timeout/restart cycles with no `dataavailable` event ever firing. -/
def zeroChunkRun (t0 : ℤ) : Nat → RecSt × ℤ
  | 0 => (startRecordingInit initRecSt t0, t0)
  | n + 1 => zeroChunkCycle (zeroChunkRun t0 n)

/- ================================================================ -/
/- Theorems                                                         -/
/- ================================================================ -/

/-- C9: the pose smoothing buffers never exceed the fixed bound N = 5:
an append at the bound drops the oldest sample first (FIFO), and the
transition to the lost state clears both buffers. -/
theorem smoothing_buffers_bounded_fifo_cleared :
    historySize = 5 ∧
    (∀ (h : List Vec3) (v : Vec3), h.length ≤ historySize →
      (addToHistory h v).length ≤ historySize) ∧
    (∀ (h : List Vec3) (v : Vec3), h.length = historySize →
      addToHistory h v = h.tail ++ [v]) ∧
    (∀ st : ARState, (onTargetLost st).positionHistory = []
      ∧ (onTargetLost st).rotationHistory = []) := by
  refine ⟨rfl, ?_, ?_, fun st => ⟨rfl, rfl⟩⟩
  · intro h v hb
    simp only [addToHistory]
    split
    · simpa using hb
    · next hc =>
      simp only [List.length_append, List.length_singleton, historySize] at hc ⊢
      omega
  · intro h v hb
    have hlen : (h ++ [v]).length > historySize := by simp [hb]
    simp only [addToHistory]
    rw [if_pos hlen, List.drop_append_of_le_length (by simp [hb, historySize]),
      List.drop_one]

/-- C9 witness: a concrete full buffer appended to, and a concrete lost
transition. -/
theorem smoothing_buffers_witness :
    addToHistory [⟨1,1,1⟩, ⟨2,2,2⟩, ⟨3,3,3⟩, ⟨4,4,4⟩, ⟨5,5,5⟩] ⟨6,6,6⟩
      = [⟨2,2,2⟩, ⟨3,3,3⟩, ⟨4,4,4⟩, ⟨5,5,5⟩, ⟨6,6,6⟩] := by
  have h := smoothing_buffers_bounded_fifo_cleared.2.2.1
    [⟨1,1,1⟩, ⟨2,2,2⟩, ⟨3,3,3⟩, ⟨4,4,4⟩, ⟨5,5,5⟩] ⟨6,6,6⟩ (by decide)
  simpa using h

/-- C10: after every `saveRecording` call returns, in both revisions,
whether it saved or failed, the chunk list has been cleared. -/
theorem saveRecording_always_clears_chunks (chunks : List Chunk)
    (recorderMime : Option String) (isMobile isIOS : Bool) :
    (saveRecordingMain chunks recorderMime isMobile isIOS).newChunks = [] ∧
    (saveRecordingPart chunks).newChunks = [] := by
  constructor
  · simp only [saveRecordingMain]
    repeat' split
    all_goals rfl
  · simp only [saveRecordingPart]
    repeat' split
    all_goals rfl

/-- C1: a zero-total-size chunk list (the empty list included) always
makes `saveRecording` fail with a user-visible error and no download,
in both revisions; a download is produced exactly when the chunk list
is non-empty with positive total byte size. -/
theorem saveRecording_zero_size_fails (chunks : List Chunk)
    (recorderMime : Option String) (isMobile isIOS : Bool) :
    (totalChunkSize chunks = 0 →
      (∃ msg, (saveRecordingMain chunks recorderMime isMobile isIOS).outcome
        = .failed msg) ∧
      (saveRecordingMain chunks recorderMime isMobile isIOS).download = none ∧
      (∃ msg, (saveRecordingPart chunks).outcome = .failed msg) ∧
      (saveRecordingPart chunks).download = none) ∧
    ((saveRecordingMain chunks recorderMime isMobile isIOS).download.isSome
      ↔ chunks ≠ [] ∧ 0 < totalChunkSize chunks) ∧
    ((saveRecordingPart chunks).download.isSome
      ↔ chunks ≠ [] ∧ 0 < totalChunkSize chunks) := by
  simp only [saveRecordingMain, saveRecordingPart]
  by_cases he : chunks.isEmpty
  · have : chunks = [] := List.isEmpty_iff.mp he
    subst this
    simp [totalChunkSize]
  · have hne : chunks ≠ [] := fun h => he (by simp [h])
    by_cases hz : totalChunkSize chunks = 0
    · simp [he, hz]
    · simp [he, hz, hne, Nat.pos_of_ne_zero hz]

/-- C1 witness: a list holding one zero-byte chunk fails both saves, and
a one-byte chunk saves with a download. -/
theorem saveRecording_zero_size_witness :
    totalChunkSize [⟨0, "video/webm"⟩] = 0 ∧
    (saveRecordingMain [⟨0, "video/webm"⟩] none false false).download = none ∧
    (saveRecordingPart [⟨0, "video/webm"⟩]).download = none ∧
    (saveRecordingMain [⟨1, "video/webm"⟩] none false false).download.isSome := by
  have h0 := saveRecording_zero_size_fails [⟨0, "video/webm"⟩] none false false
  have h1 := saveRecording_zero_size_fails [⟨1, "video/webm"⟩] none false false
  exact ⟨by decide, (h0.1 (by decide)).2.1, (h0.1 (by decide)).2.2.2,
    h1.2.1.mpr ⟨by decide, by decide⟩⟩

/-- C6 counterexample: the composite capture extracts data below the
1000-byte validity threshold while the raw video source would deliver
valid data; `takeScreenshot` surfaces the user-visible failure for the
composite path at once instead of retrying the next source in the
claimed preference order. -/
theorem takeScreenshot_no_retry_cex :
    takeScreenshot true true true
        (fun s => if s = CaptureSource.composite then 0 else 5000)
      = CaptureOutcome.errorShown CaptureSource.composite := by
  rfl

/-- C6 amended: a below-threshold extraction is treated as a capture
failure (an error is surfaced, never a successful empty image), but the
dispatcher does not retry: it picks a single source up front (composite
when the composite canvas exists and video content is detected,
renderer-only when the composite exists without video content,
otherwise raw video when it has dimensions, else renderer-only) and
surfaces the failure for that source immediately. -/
theorem takeScreenshot_single_source (hasCompositeCanvas hasVideoContent
    videoWidthPositive : Bool) (extract : CaptureSource → Nat) :
    takeScreenshot hasCompositeCanvas hasVideoContent videoWidthPositive extract =
      if extract (selectCaptureSource hasCompositeCanvas hasVideoContent
          videoWidthPositive) < 1000 then
        CaptureOutcome.errorShown (selectCaptureSource hasCompositeCanvas
          hasVideoContent videoWidthPositive)
      else
        CaptureOutcome.downloaded (selectCaptureSource hasCompositeCanvas
          hasVideoContent videoWidthPositive) := by
  cases hasCompositeCanvas <;> cases hasVideoContent <;> cases videoWidthPositive <;>
    simp [takeScreenshot, selectCaptureSource, captureFromCanvas]

/-- C3 counterexample: on a mobile device with the recorder reporting
the delivered format "video/webm", `saveRecording` names the download
.mp4/video/mp4 — a webm-format recording wrapped in an mp4 extension,
so the chosen extension/container does not match the delivered format
string. -/
theorem saveRecording_mobile_webm_mislabelled_cex :
    (saveRecordingMain [⟨9, "video/webm"⟩] (some "video/webm") true false).download
      = some ("mp4", "video/mp4") ∧
    strHasSub "video/webm" "webm" = true ∧
    strHasSub "mp4" "webm" = false := by
  refine ⟨by decide, by decide, by decide⟩

/-- C3 amended: only off mobile does the chosen extension/container
follow the recorder's delivered format string (webm kept as webm,
anything else — mp4 included — saved as mp4, mp4 also being the default
when no format is reported); on mobile the extension/container are
always forced to mp4 regardless of the delivered format. -/
theorem chooseFormatMain_spec (m : String) :
    (∀ recorderMime : Option String,
      chooseFormatMain recorderMime true = ("mp4", "video/mp4")) ∧
    (strHasSub (strToLower m) "webm" = true →
      chooseFormatMain (some m) false = ("webm", "video/webm")) ∧
    (strHasSub (strToLower m) "webm" = false →
      chooseFormatMain (some m) false = ("mp4", "video/mp4")) ∧
    chooseFormatMain none false = ("mp4", "video/mp4") := by
  refine ⟨?_, ?_, ?_, rfl⟩
  · intro recorderMime
    cases recorderMime with
    | none => rfl
    | some v =>
      simp only [chooseFormatMain]
      split_ifs <;> rfl
  · intro h
    simp [chooseFormatMain, h]
  · intro h
    simp only [chooseFormatMain, h, Bool.false_eq_true, if_false]
    split_ifs <;> rfl

/-- C7: when the support predicate rejects every candidate before the
final universal fallback, that fallback is still selected and no
format error is raised — in main.js because a null selection is
replaced by "video/webm" before the error check, in part_000 because
the loop reaches the last candidate "video/mp4"; and in general the
selection is the first candidate the predicate accepts. -/
theorem startRecording_mime_fallback (supportM supportP : String → Bool)
    (isMobile : Bool)
    (hmain : ∀ m ∈ (mimeCandidatesMain isMobile).dropLast, supportM m = false)
    (hpart : ∀ m ∈ mimeCandidatesPart.dropLast, supportP m = false)
    (hpartLast : supportP "video/mp4" = true) :
    selectMimeTypeMain supportM isMobile = Except.ok "video/webm" ∧
    selectMimeTypePart supportP = Except.ok "video/mp4" ∧
    (∀ (support : String → Bool) (c : String),
      (mimeCandidatesMain isMobile).find? support = some c →
        selectMimeTypeMain support isMobile = Except.ok c) ∧
    (∀ (support : String → Bool) (c : String),
      mimeCandidatesPart.find? support = some c →
        selectMimeTypePart support = Except.ok c) := by
  refine ⟨?_, ?_, ?_, ?_⟩
  · cases isMobile with
    | false =>
      have h1 := hmain "video/mp4;codecs=h264" (by decide)
      have h2 := hmain "video/mp4" (by decide)
      have h3 := hmain "video/webm;codecs=vp9" (by decide)
      have h4 := hmain "video/webm;codecs=vp8" (by decide)
      cases hsup : supportM "video/webm" <;>
        simp [selectMimeTypeMain, mimeCandidatesMain, List.find?,
          h1, h2, h3, h4, hsup]
    | true =>
      have h1 := hmain "video/mp4;codecs=h264" (by decide)
      have h2 := hmain "video/mp4;codecs=avc1" (by decide)
      have h3 := hmain "video/mp4" (by decide)
      have h4 := hmain "video/webm;codecs=vp9" (by decide)
      have h5 := hmain "video/webm;codecs=vp8" (by decide)
      cases hsup : supportM "video/webm" <;>
        simp [selectMimeTypeMain, mimeCandidatesMain, List.find?,
          h1, h2, h3, h4, h5, hsup]
  · have h1 := hpart "video/webm;codecs=vp9" (by decide)
    have h2 := hpart "video/webm;codecs=vp8" (by decide)
    have h3 := hpart "video/webm" (by decide)
    simp [selectMimeTypePart, mimeCandidatesPart, List.find?,
      h1, h2, h3, hpartLast]
  · intro support c hc
    simp [selectMimeTypeMain, hc]
  · intro support c hc
    simp [selectMimeTypePart, hc]

/-- C7 witness: predicates true only on each list's final fallback. -/
theorem startRecording_mime_fallback_witness :
    selectMimeTypeMain (fun m => m == "video/webm") true = Except.ok "video/webm" ∧
    selectMimeTypePart (fun m => m == "video/mp4") = Except.ok "video/mp4" := by
  have h := startRecording_mime_fallback (fun m => m == "video/webm")
    (fun m => m == "video/mp4") true (by decide) (by decide) (by decide)
  exact ⟨h.1, h.2.1⟩

/-- Closed form of the zero-chunk execution: every cycle ends in a
fresh `startRecording` 4500 ms after the previous one — in particular
with `recordingAttempts` reset to 0, which is what keeps the
`recordingAttempts >= 2` fallback branch of `checkRecordingHealth`
unreachable. -/
theorem zeroChunkRun_closed (t0 : ℤ) (n : Nat) :
    zeroChunkRun t0 n
      = (startRecordingInit initRecSt (t0 + 4500 * n), t0 + 4500 * n) := by
  induction n with
  | zero => simp [zeroChunkRun]
  | succ n ih =>
    show zeroChunkCycle (zeroChunkRun t0 n) = _
    rw [ih]
    simp only [zeroChunkCycle, checkRecordingHealth, startRecordingInit,
      stopRecordingModel, initRecSt]
    norm_num
    ring

/-- C2 (refuting the escalation policy as specified): in the zero-chunk
execution, after every restart cycle the session is recording again
with `recordingAttempts = 0` and `fallbackRecording = false`, and the
timed-out health check always takes the restart action, never the
fallback — `startRecording` resets the attempt counter, so the
second-consecutive-timeout switch to the degraded frame-polling
fallback (which the code's own comment promises after 2 failed
attempts) is unreachable and the session restarts indefinitely. -/
theorem zeroChunk_restart_loop_never_falls_back (t0 : ℤ) (n : Nat) :
    (zeroChunkRun t0 n).1.fallbackRecording = false ∧
    (zeroChunkRun t0 n).1.recordingAttempts = 0 ∧
    (zeroChunkRun t0 n).1.isRecording = true ∧
    (checkRecordingHealth (zeroChunkRun t0 n).1 ((zeroChunkRun t0 n).2 + 4000)).1
      = HealthAction.restartRecording := by
  rw [zeroChunkRun_closed]
  refine ⟨rfl, rfl, rfl, ?_⟩
  simp only [checkRecordingHealth, startRecordingInit, initRecSt]
  norm_num

/-- While the apply-guard fails (delay not strictly elapsed, or
confidence at or below the threshold), a stabilization tick only grows
the histories: anchor pose, stable-time stamp and confidence are
untouched. -/
theorem updateTrackingStabilization_no_apply (st : ARState) (t : ℤ)
    (h : t - st.lastStableTime ≤ stabilizationDelay
      ∨ st.trackingConfidence ≤ confidenceThreshold) :
    (updateTrackingStabilization st t).anchorPosition = st.anchorPosition ∧
    (updateTrackingStabilization st t).anchorRotation = st.anchorRotation ∧
    (updateTrackingStabilization st t).lastStableTime = st.lastStableTime ∧
    (updateTrackingStabilization st t).trackingConfidence = st.trackingConfidence := by
  simp only [updateTrackingStabilization]
  split
  · exact ⟨rfl, rfl, rfl, rfl⟩
  · have hguard : ¬(t - st.lastStableTime > stabilizationDelay
        ∧ st.trackingConfidence > confidenceThreshold) := by
      rcases h with h | h
      · exact fun hc => absurd hc.1 (not_lt.mpr h)
      · exact fun hc => absurd hc.2 (not_lt.mpr h)
    rw [if_neg hguard]
    exact ⟨rfl, rfl, rfl, rfl⟩

/-- Iterated ticks before the delay has elapsed never move the anchor:
folding `updateTrackingStabilization` over tick times that all fail the
guard keeps the anchor pose (the histories may fill meanwhile). -/
theorem foldl_stabilization_no_apply (ts : List ℤ) (s : ARState)
    (hts : ∀ t ∈ ts, t - s.lastStableTime ≤ stabilizationDelay) :
    (ts.foldl updateTrackingStabilization s).anchorPosition = s.anchorPosition ∧
    (ts.foldl updateTrackingStabilization s).anchorRotation = s.anchorRotation := by
  induction ts generalizing s with
  | nil => exact ⟨rfl, rfl⟩
  | cons t ts ih =>
    have h := updateTrackingStabilization_no_apply s t
      (Or.inl (hts t (by simp)))
    have hrec := ih (updateTrackingStabilization s t)
      (fun u hu => by rw [h.2.2.1]; exact hts u (by simp [hu]))
    simp only [List.foldl_cons]
    exact ⟨hrec.1.trans h.1, hrec.2.trans h.2.1⟩

/-- C8: a stabilization tick leaves the anchor group's pose unchanged
unless the 100 ms stabilization delay has elapsed since the last found
transition and the confidence exceeds 0.7; and in the scenario of a
target found at t = 0 with confidence 1.0, any sequence of frame ticks
at times < 100 ms applies no smoothed pose to the anchor transform,
however many samples the buffers hold. -/
theorem stabilization_delay_gates_anchor (st : ARState) (currentTime : ℤ)
    (ts : List ℤ)
    (hgate : currentTime - st.lastStableTime ≤ stabilizationDelay
      ∨ st.trackingConfidence ≤ confidenceThreshold)
    (hts : ∀ t ∈ ts, t < 100) :
    ((updateTrackingStabilization st currentTime).anchorPosition
        = st.anchorPosition ∧
      (updateTrackingStabilization st currentTime).anchorRotation
        = st.anchorRotation) ∧
    ((ts.foldl updateTrackingStabilization (onTargetFound st 0)).anchorPosition
        = st.anchorPosition ∧
      (ts.foldl updateTrackingStabilization (onTargetFound st 0)).anchorRotation
        = st.anchorRotation) := by
  have h1 := updateTrackingStabilization_no_apply st currentTime hgate
  have hfound : (onTargetFound st 0).lastStableTime = 0 := rfl
  have h2 := foldl_stabilization_no_apply ts (onTargetFound st 0)
    (fun t ht => by
      rw [hfound, sub_zero]
      exact le_of_lt (lt_of_lt_of_le (hts t ht) (by norm_num [stabilizationDelay])))
  exact ⟨⟨h1.1, h1.2.1⟩, ⟨h2.1, h2.2⟩⟩

/-- C8 witness: target found at t = 0 with confidence 1.0, three ticks
at 10, 50 and 99 ms; the anchor pose stays (1,2,3)/(4,5,6). -/
theorem stabilization_delay_gates_anchor_witness :
    (([10, 50, 99] : List ℤ).foldl updateTrackingStabilization
        (onTargetFound ⟨true, 1, 0, [], [], ⟨0,0,0⟩, ⟨0,0,0⟩, ⟨1,2,3⟩, ⟨4,5,6⟩⟩ 0)).anchorPosition
      = ⟨1,2,3⟩ := by
  have h := stabilization_delay_gates_anchor
    ⟨true, 1, 0, [], [], ⟨0,0,0⟩, ⟨0,0,0⟩, ⟨1,2,3⟩, ⟨4,5,6⟩⟩ 50 [10, 50, 99]
    (Or.inl (by norm_num [stabilizationDelay])) (by decide)
  exact h.2.1

/-- C4 counterexample: desktop viewport 100×600 at pixel ratio 1 — the
width is raised to the 320 floor while the height is left at 600, so
the output (320, 600) does not preserve the 100:600 viewport aspect
ratio (320·600 ≠ 600·100, far beyond rounding tolerance). -/
theorem updateCanvasSize_desktop_aspect_cex :
    updateCanvasSize false 100 600 1 = (320, 600) ∧
    (updateCanvasSize false 100 600 1).1 * 600
      ≠ (updateCanvasSize false 100 600 1).2 * 100 := by
  constructor
  · norm_num [updateCanvasSize]
  · norm_num [updateCanvasSize]

/-- C4 amended: on mobile the output is positive, bounded by the
1280×720 ceiling and preserves the viewport aspect ratio exactly (there
is no mobile lower floor); on desktop width and height are raised to
the 320·pr and 240·pr floors independently with no upper bound, which
preserves the aspect ratio only when neither dimension is below its
floor. -/
theorem updateCanvasSize_spec (vw vh pr : ℚ)
    (hw : 0 < vw) (hh : 0 < vh) (hp : 0 < pr) :
    (0 < (updateCanvasSize true vw vh pr).1 ∧
     0 < (updateCanvasSize true vw vh pr).2 ∧
     (updateCanvasSize true vw vh pr).1 ≤ 1280 ∧
     (updateCanvasSize true vw vh pr).2 ≤ 720 ∧
     (updateCanvasSize true vw vh pr).1 * vh
       = (updateCanvasSize true vw vh pr).2 * vw) ∧
    ((updateCanvasSize false vw vh pr).1 = max (vw * pr) (320 * pr) ∧
     (updateCanvasSize false vw vh pr).2 = max (vh * pr) (240 * pr) ∧
     320 * pr ≤ (updateCanvasSize false vw vh pr).1 ∧
     240 * pr ≤ (updateCanvasSize false vw vh pr).2 ∧
     (320 ≤ vw → 240 ≤ vh →
       (updateCanvasSize false vw vh pr).1 * vh
         = (updateCanvasSize false vw vh pr).2 * vw)) := by
  have hwp : 0 < vw * pr := mul_pos hw hp
  have hhp : 0 < vh * pr := mul_pos hh hp
  constructor
  · simp only [updateCanvasSize, if_true]
    split_ifs with h1 h2 h3
    · -- width clamped, then height clamped
      have hmid : (0 : ℚ) < vh * pr * (1280 / (vw * pr)) := by positivity
      refine ⟨by positivity, by norm_num, ?_, le_refl _, ?_⟩
      · have : 720 / (vh * pr * (1280 / (vw * pr))) ≤ 1 := by
          rw [div_le_one hmid]
          exact le_of_lt (by exact_mod_cast h2)
        calc (1280 : ℚ) * (720 / (vh * pr * (1280 / (vw * pr))))
            ≤ 1280 * 1 := by
              exact mul_le_mul_of_nonneg_left this (by norm_num)
          _ = 1280 := by ring
      · field_simp
        ring
    · -- width clamped, height then fits
      refine ⟨by norm_num, ?_, le_refl _, le_of_not_lt (by simpa using h2), ?_⟩
      · positivity
      · field_simp
        ring
    · -- width fits, height clamped
      have hfit : vw * pr ≤ 1280 := le_of_not_lt (by simpa using h1)
      refine ⟨by positivity, by norm_num, ?_, le_refl _, ?_⟩
      · have : 720 / (vh * pr) ≤ 1 := by
          rw [div_le_one hhp]
          exact le_of_lt (by exact_mod_cast h3)
        calc vw * pr * (720 / (vh * pr))
            ≤ vw * pr * 1 := mul_le_mul_of_nonneg_left this (le_of_lt hwp)
          _ ≤ 1280 := by linarith
      · field_simp
        ring
    · -- nothing clamped
      exact ⟨hwp, hhp, le_of_not_lt (by simpa using h1),
        le_of_not_lt (by simpa using h3), by ring⟩
  · have hd : updateCanvasSize false vw vh pr
        = (max (vw * pr) (320 * pr), max (vh * pr) (240 * pr)) := rfl
    rw [hd]
    refine ⟨rfl, rfl, le_max_right _ _, le_max_right _ _, ?_⟩
    intro h320 h240
    have hwfloor : 320 * pr ≤ vw * pr :=
      mul_le_mul_of_nonneg_right h320 (le_of_lt hp)
    have hhfloor : 240 * pr ≤ vh * pr :=
      mul_le_mul_of_nonneg_right h240 (le_of_lt hp)
    rw [max_eq_left hwfloor, max_eq_left hhfloor]
    ring

/-- C4 witness: the spec's own scenario — viewport 390×844 at pixel
ratio 3 on mobile clamps to height 720 preserving the aspect ratio. -/
theorem updateCanvasSize_spec_witness :
    (updateCanvasSize true 390 844 3).2 ≤ 720 ∧
    (updateCanvasSize true 390 844 3).1 * 844
      = (updateCanvasSize true 390 844 3).2 * 390 := by
  have h := updateCanvasSize_spec 390 844 3
    (by norm_num) (by norm_num) (by norm_num)
  exact ⟨h.1.2.2.2.1, h.1.2.2.2.2⟩

/-- C5: for positive source and surface dimensions, the cover-fit video
rectangle fully covers the surface (offsets non-positive, far edges at
or beyond the surface bounds) and is centered, while the contain-fit
renderer rectangle lies entirely within the surface with positive size
(the full source frame mapped inside, never cropped) and is centered. -/
theorem compositor_cover_contain (sw sh cw ch : ℚ)
    (hsw : 0 < sw) (hsh : 0 < sh) (hcw : 0 < cw) (hch : 0 < ch) :
    ((drawVideoCoverRect sw sh cw ch).ox ≤ 0 ∧
     (drawVideoCoverRect sw sh cw ch).oy ≤ 0 ∧
     cw ≤ (drawVideoCoverRect sw sh cw ch).ox
        + (drawVideoCoverRect sw sh cw ch).dw ∧
     ch ≤ (drawVideoCoverRect sw sh cw ch).oy
        + (drawVideoCoverRect sw sh cw ch).dh ∧
     (drawVideoCoverRect sw sh cw ch).ox
        = (cw - (drawVideoCoverRect sw sh cw ch).dw) / 2 ∧
     (drawVideoCoverRect sw sh cw ch).oy
        = (ch - (drawVideoCoverRect sw sh cw ch).dh) / 2) ∧
    (0 ≤ (drawRendererContainRect sw sh cw ch).ox ∧
     0 ≤ (drawRendererContainRect sw sh cw ch).oy ∧
     (drawRendererContainRect sw sh cw ch).ox
        + (drawRendererContainRect sw sh cw ch).dw ≤ cw ∧
     (drawRendererContainRect sw sh cw ch).oy
        + (drawRendererContainRect sw sh cw ch).dh ≤ ch ∧
     0 < (drawRendererContainRect sw sh cw ch).dw ∧
     0 < (drawRendererContainRect sw sh cw ch).dh ∧
     (drawRendererContainRect sw sh cw ch).ox
        = (cw - (drawRendererContainRect sw sh cw ch).dw) / 2 ∧
     (drawRendererContainRect sw sh cw ch).oy
        = (ch - (drawRendererContainRect sw sh cw ch).dh) / 2) := by
  have haspect : 0 < sw / sh := div_pos hsw hsh
  constructor
  · simp only [drawVideoCoverRect]
    split_ifs with h
    · -- video wider: drawn width overflows, height exact
      have hkey : cw ≤ ch * (sw / sh) := by
        rw [gt_iff_lt, div_lt_div_iff₀ hch hsh] at h
        rw [← mul_div_assoc, le_div_iff₀ hsh]
        nlinarith
      exact ⟨by dsimp only; linarith, by dsimp only; norm_num,
        by dsimp only; linarith, by dsimp only; norm_num,
        by dsimp only, by dsimp only; norm_num⟩
    · -- video taller: drawn height overflows, width exact
      have hkey : ch ≤ cw / (sw / sh) := by
        rw [gt_iff_lt, not_lt] at h
        rw [div_le_div_iff₀ hsh hch] at h
        rw [div_div_eq_mul_div, le_div_iff₀ hsw]
        nlinarith
      exact ⟨by dsimp only; norm_num, by dsimp only; linarith,
        by dsimp only; norm_num, by dsimp only; linarith,
        by dsimp only; norm_num, by dsimp only⟩
  · simp only [drawRendererContainRect]
    split_ifs with h
    · -- renderer wider: width exact, height letterboxed
      have hkey : cw / (sw / sh) ≤ ch := by
        rw [gt_iff_lt, div_lt_div_iff₀ hch hsh] at h
        rw [div_div_eq_mul_div, div_le_iff₀ hsw]
        nlinarith
      have hpos : 0 < cw / (sw / sh) := div_pos hcw haspect
      exact ⟨by dsimp only; norm_num, by dsimp only; linarith,
        by dsimp only; norm_num, by dsimp only; linarith,
        by dsimp only; linarith, by dsimp only; linarith,
        by dsimp only; norm_num, by dsimp only⟩
    · -- renderer taller: height exact, width pillarboxed
      have hkey : ch * (sw / sh) ≤ cw := by
        rw [gt_iff_lt, not_lt] at h
        rw [div_le_div_iff₀ hsh hch] at h
        rw [← mul_div_assoc, div_le_iff₀ hsh]
        nlinarith
      have hpos : 0 < ch * (sw / sh) := mul_pos hch haspect
      exact ⟨by dsimp only; linarith, by dsimp only; norm_num,
        by dsimp only; linarith, by dsimp only; norm_num,
        by dsimp only; linarith, by dsimp only; linarith,
        by dsimp only, by dsimp only; norm_num⟩

/-- C5 witness: a 16:9 source on a 4:3 surface. -/
theorem compositor_cover_contain_witness :
    (drawVideoCoverRect 16 9 4 3).ox ≤ 0 ∧
    (drawRendererContainRect 16 9 4 3).oy
      + (drawRendererContainRect 16 9 4 3).dh ≤ 3 := by
  have h := compositor_cover_contain 16 9 4 3
    (by norm_num) (by norm_num) (by norm_num) (by norm_num)
  exact ⟨h.1.1, h.2.2.2.2.1⟩
